import Mathlib

/-!
Shallow embedding of the financial dashboard in `src/app.py`.

Python floats are modelled as rationals (`Rat`); an *unguarded* float
division whose denominator is zero produces a non-finite float (inf or
NaN) in the program, which the embedding tracks as `none : Option Rat`
(`fdiv` below).  The pseudorandom values drawn from numpy after
`np.random.seed(42)` are a pure function of the seed, so one session's
draws are carried as an explicit `Draws` value; the irrational `sin`
samples of the seasonal factor are carried the same way.  Calendar dates
coming from `datetime.now()` / `pd.date_range` are carried as explicit
`MDate` inputs (absolute day ordinal plus the year and month that
`dt.year` / `dt.month` extract).
-/

namespace FinDash

/-- A month-end date: absolute day ordinal (for `Date` comparisons and
`timedelta(days=90)` arithmetic) plus calendar year and month. -/
structure MDate where
  ord : Int
  year : Int
  month : Int
deriving DecidableEq, Repr

/-- One row of the main monthly table built by `generate_financial_data`
(app.py lines 118-135); the derived `Month` display string is omitted. -/
structure MRec where
  date : MDate
  revenue : Rat
  expenses : Rat
  profit : Rat
  profitMargin : Rat
  budgetRevenue : Rat
  budgetExpenses : Rat
  budgetProfit : Rat
  budgetProfitMargin : Rat
  operatingCashFlow : Rat
  investingCashFlow : Rat
  financingCashFlow : Rat
  netCashFlow : Rat
  currentAssets : Rat
  currentLiabilities : Rat
deriving DecidableEq, Repr

/-- One row of the department table (app.py lines 106-115). -/
structure DRec where
  date : MDate
  department : String
  revenue : Rat
  expenses : Rat
  profit : Rat
  budgetRevenue : Rat
  budgetExpenses : Rat
  budgetProfit : Rat
deriving DecidableEq, Repr

/-- The pseudorandom draws `generate_financial_data` consumes after
`np.random.seed(42)`, one field per draw site, indexed by month `i`
(and department index `j` for the per-department draws).  `sinv i`
stands for `sin(linspace(0, 4*pi, n))[i]`. -/
structure Draws where
  sinv : Nat → Rat
  noiseRev : Nat → Rat
  budRevMul : Nat → Rat
  expRatio : Nat → Rat
  noiseExp : Nat → Rat
  budExpMul : Nat → Rat
  ocfMul : Nat → Rat
  icfMul : Nat → Rat
  fcfMul : Nat → Rat
  caMul : Nat → Rat
  clMul : Nat → Rat
  deptRevFrac : Nat → Nat → Rat
  deptExpFrac : Nat → Nat → Rat
  deptBudRevMul : Nat → Nat → Rat
  deptBudExpMul : Nat → Nat → Rat

/-- `np.linspace a b n` at index `i` (numpy returns `[a]` for `n = 1`). -/
def linspaceVal (a b : Rat) (n i : Nat) : Rat :=
  if n ≤ 1 then a else a + (b - a) * i / ((n : Rat) - 1)

/-- `revenue = base_revenue * revenue_trend * seasonal_factor * noise`
(app.py lines 70-73). -/
def revenueAt (n : Nat) (D : Draws) (i : Nat) : Rat :=
  1000000 * linspaceVal (9/10) (6/5) n i * (D.sinv i * (1/10) + 1) * D.noiseRev i

/-- `expenses = revenue * expense_ratio * noise` (app.py lines 79-80). -/
def expensesAt (n : Nat) (D : Draws) (i : Nat) : Rat :=
  revenueAt n D i * D.expRatio i * D.noiseExp i

/-- `profit = revenue - expenses` (app.py line 84). -/
def profitAt (n : Nat) (D : Draws) (i : Nat) : Rat :=
  revenueAt n D i - expensesAt n D i

/-- `budget_revenue = revenue * uniform(1.05, 1.1)` (app.py line 76). -/
def budgetRevenueAt (n : Nat) (D : Draws) (i : Nat) : Rat :=
  revenueAt n D i * D.budRevMul i

/-- `budget_expenses = expenses * uniform(0.95, 1.0)` (app.py line 81). -/
def budgetExpensesAt (n : Nat) (D : Draws) (i : Nat) : Rat :=
  expensesAt n D i * D.budExpMul i

/-- `operating_cash_flow = profit * uniform(0.8, 1.2)` (app.py line 88). -/
def operatingCFAt (n : Nat) (D : Draws) (i : Nat) : Rat :=
  profitAt n D i * D.ocfMul i

/-- `investing_cash_flow = -expenses * uniform(0.1, 0.3)` (app.py line 89). -/
def investingCFAt (n : Nat) (D : Draws) (i : Nat) : Rat :=
  -expensesAt n D i * D.icfMul i

/-- `financing_cash_flow = profit * uniform(-0.2, 0.2)` (app.py line 90). -/
def financingCFAt (n : Nat) (D : Draws) (i : Nat) : Rat :=
  profitAt n D i * D.fcfMul i

/-- A monthly record as assembled into `main_df` (app.py lines 118-135). -/
def mkMonthly (n : Nat) (D : Draws) (i : Nat) (d : MDate) : MRec :=
  { date := d
    revenue := revenueAt n D i
    expenses := expensesAt n D i
    profit := profitAt n D i
    profitMargin := profitAt n D i / revenueAt n D i
    budgetRevenue := budgetRevenueAt n D i
    budgetExpenses := budgetExpensesAt n D i
    budgetProfit := budgetRevenueAt n D i - budgetExpensesAt n D i
    budgetProfitMargin := (budgetRevenueAt n D i - budgetExpensesAt n D i) / budgetRevenueAt n D i
    operatingCashFlow := operatingCFAt n D i
    investingCashFlow := investingCFAt n D i
    financingCashFlow := financingCFAt n D i
    netCashFlow := operatingCFAt n D i + investingCFAt n D i + financingCFAt n D i
    currentAssets := revenueAt n D i * D.caMul i
    currentLiabilities := expensesAt n D i * D.clMul i }

/-- The fixed department list (app.py line 98). -/
def departments : List String := ["Sales", "Marketing", "R&D", "Operations", "Administration"]

/-- A department record for month `i` and department index `j`
(app.py lines 100-115). -/
def mkDept (n : Nat) (D : Draws) (i j : Nat) (name : String) (d : MDate) : DRec :=
  { date := d
    department := name
    revenue := revenueAt n D i * D.deptRevFrac i j
    expenses := expensesAt n D i * D.deptExpFrac i j
    profit := revenueAt n D i * D.deptRevFrac i j - expensesAt n D i * D.deptExpFrac i j
    budgetRevenue := revenueAt n D i * D.deptRevFrac i j * D.deptBudRevMul i j
    budgetExpenses := expensesAt n D i * D.deptExpFrac i j * D.deptBudExpMul i j
    budgetProfit := revenueAt n D i * D.deptRevFrac i j * D.deptBudRevMul i j
      - expensesAt n D i * D.deptExpFrac i j * D.deptBudExpMul i j }

/-- The default/placeholder date used only for out-of-range list access. -/
def dateDef : MDate := ⟨0, 0, 0⟩

/-- The monthly table of `generate_financial_data`. -/
def generateMonthly (dates : List MDate) (D : Draws) : List MRec :=
  (List.range dates.length).map fun i => mkMonthly dates.length D i (dates.getD i dateDef)

/-- The department table of `generate_financial_data` (the nested
`for i, date in enumerate(dates): for dept in departments:` loop). -/
def generateDept (dates : List MDate) (D : Draws) : List DRec :=
  ((List.range dates.length).map fun i =>
    (List.range departments.length).map fun j =>
      mkDept dates.length D i j (departments.getD j "") (dates.getD i dateDef)).flatten

/-- `generate_financial_data` returns the pair of tables. -/
def generate (dates : List MDate) (D : Draws) : List MRec × List DRec :=
  (generateMonthly dates D, generateDept dates D)

/-- The sidebar time-period selector values (app.py lines 151-155). -/
inductive TimePeriod where
  | last3 : TimePeriod
  | last6 : TimePeriod
  | last12 : TimePeriod
  | allTime : TimePeriod
deriving DecidableEq, Repr

/-- `df['Date'].max()` as a day ordinal (only used on non-empty tables). -/
def maxDateOrd (rows : List MRec) : Int :=
  ((rows.map fun r => r.date.ord).max?).getD 0

/-- `dept_df['Date'].max()` as a day ordinal. -/
def maxDateOrdD (rows : List DRec) : Int :=
  ((rows.map fun r => r.date.ord).max?).getD 0

/-- Time-window filtering of the monthly table (app.py lines 190-201):
`Last 3 Months` keeps dates within 90 days of the maximum, `Last 6 Months`
within 180 days, and both `Last 12 Months` and `All Time` leave the table
unfiltered. -/
def filterMonthly (p : TimePeriod) (main : List MRec) : List MRec :=
  match p with
  | .last3 => main.filter fun r => decide (maxDateOrd main - 90 ≤ r.date.ord)
  | .last6 => main.filter fun r => decide (maxDateOrd main - 180 ≤ r.date.ord)
  | .last12 => main
  | .allTime => main

/-- Time-window filtering of the department table (same branches). -/
def filterDeptTime (p : TimePeriod) (dept : List DRec) : List DRec :=
  match p with
  | .last3 => dept.filter fun r => decide (maxDateOrdD dept - 90 ≤ r.date.ord)
  | .last6 => dept.filter fun r => decide (maxDateOrdD dept - 180 ≤ r.date.ord)
  | .last12 => dept
  | .allTime => dept

/-- Department selection (app.py line 203). -/
def filterDept (p : TimePeriod) (sel : List String) (dept : List DRec) : List DRec :=
  (filterDeptTime p dept).filter fun r => decide (r.department ∈ sel)

/-- The revenue-scenario pass (app.py lines 206-210): perturb revenue and
recompute profit and profit margin from the perturbed frame. -/
def scenarioRevenue (r : Rat) (x : MRec) : MRec :=
  { x with
    revenue := x.revenue * (1 + r / 100)
    profit := x.revenue * (1 + r / 100) - x.expenses
    profitMargin := (x.revenue * (1 + r / 100) - x.expenses) / (x.revenue * (1 + r / 100)) }

/-- The expense-scenario pass (app.py lines 212-216). -/
def scenarioExpense (e : Rat) (x : MRec) : MRec :=
  { x with
    expenses := x.expenses * (1 + e / 100)
    profit := x.revenue - x.expenses * (1 + e / 100)
    profitMargin := (x.revenue - x.expenses * (1 + e / 100)) / x.revenue }

/-- Scenario application: each pass runs only when its slider is nonzero,
revenue first, then expenses, on the already-updated frame. -/
def applyScenario (r e : Rat) (rows : List MRec) : List MRec :=
  let rows1 := if r = 0 then rows else rows.map (scenarioRevenue r)
  if e = 0 then rows1 else rows1.map (scenarioExpense e)

/-- The whole filter/scenario pipeline: time window and scenario on the
monthly table, time window and department selection on the department
table (the scenario never touches department rows). -/
def applyView (p : TimePeriod) (sel : List String) (r e : Rat)
    (main : List MRec) (dept : List DRec) : List MRec × List DRec :=
  (applyScenario r e (filterMonthly p main), filterDept p sel dept)

/-- The all-zero monthly record, used as the out-of-range default of
`List.getD` (never reached under the index bounds proved below). -/
def mdef : MRec :=
  { date := dateDef, revenue := 0, expenses := 0, profit := 0, profitMargin := 0
    budgetRevenue := 0, budgetExpenses := 0, budgetProfit := 0, budgetProfitMargin := 0
    operatingCashFlow := 0, investingCashFlow := 0, financingCashFlow := 0
    netCashFlow := 0, currentAssets := 0, currentLiabilities := 0 }

/-- `latest_data = filtered_main.iloc[-1] if len(filtered_main) > 0 else
main_df.iloc[-1]` (app.py line 322). -/
def latest_data (filteredMain baseMain : List MRec) : Option MRec :=
  if 0 < filteredMain.length then filteredMain.getLast? else baseMain.getLast?

/-- `latest_cash_flow = filtered_main.iloc[-1] if len(filtered_main) > 0
else main_df.iloc[-1]` (app.py line 435). -/
def latest_cash_flow (filteredMain baseMain : List MRec) : Option MRec :=
  if 0 < filteredMain.length then filteredMain.getLast? else baseMain.getLast?

/-- An unguarded float division: a zero denominator gives a non-finite
float (NaN or inf), tracked as `none`. -/
def fdiv (a b : Rat) : Option Rat :=
  if b = 0 then none else some (a / b)

/-- A guarded ratio `num / den if den > 0 else 0` as written at app.py
lines 326-332 and 354. -/
def guardDiv (a b : Rat) : Rat :=
  if 0 < b then a / b else 0

/-- `Revenue Growth (MoM)`: `rev.iloc[-1] / rev.iloc[-2] - 1` when the
filtered table has more than one row, else 0 (app.py line 353). -/
def revenueGrowth (rows : List MRec) : Option Rat :=
  if 1 < rows.length then
    (fdiv (rows.getD (rows.length - 1) mdef).revenue
      (rows.getD (rows.length - 2) mdef).revenue).map fun q => q - 1
  else some 0

/-- One row of `ratios_df` (app.py lines 334-365). -/
structure RatioRow where
  name : String
  value : Option Rat
  target : Rat
  industryAvg : Rat
deriving DecidableEq, Repr

/-- The default ratio row (out-of-range list access only). -/
def rowDef : RatioRow := ⟨"", none, 0, 0⟩

/-- The `ratios_data` table (app.py lines 334-363) computed from the
`latest_data` record and, for the MoM growth row, the filtered table. -/
def ratiosTable (latest : MRec) (filtered : List MRec) : List RatioRow :=
  [ ⟨"Gross Profit Margin", some latest.profitMargin, 1/4, 11/50⟩,
    ⟨"Operating Margin", fdiv latest.profit latest.revenue, 1/5, 9/50⟩,
    ⟨"EBITDA Margin", fdiv latest.profit latest.revenue, 11/50, 1/5⟩,
    ⟨"Expense Ratio", fdiv latest.expenses latest.revenue, 13/20, 17/25⟩,
    ⟨"Revenue Growth (MoM)", revenueGrowth filtered, 1/20, 1/25⟩,
    ⟨"Return on Investment", some (guardDiv latest.profit latest.expenses), 3/10, 1/4⟩,
    ⟨"Current Ratio", some (guardDiv latest.currentAssets latest.currentLiabilities), 2, 9/5⟩,
    ⟨"Quick Ratio", some (guardDiv (latest.currentAssets * (7/10)) latest.currentLiabilities), 3/2, 13/10⟩,
    ⟨"Operating Cash Flow Ratio", some (guardDiv latest.operatingCashFlow latest.currentLiabilities), 6/5, 1⟩,
    ⟨"Revenue Variance", some (guardDiv (latest.revenue - latest.budgetRevenue) latest.budgetRevenue), 0, -1/20⟩,
    ⟨"Expense Variance", some (guardDiv (latest.expenses - latest.budgetExpenses) latest.budgetExpenses), 0, 3/100⟩ ]

/-- The two ratio names given the variance rule in the `Status` lambda. -/
def varianceNames : List String := ["Revenue Variance", "Expense Variance"]

/-- The `Status` lambda of app.py lines 366-370 on a finite value:
`Good` iff a variance ratio has `|value| <= 0.05`, or a non-variance
ratio has `value >= target`. -/
def statusGood (name : String) (v t : Rat) : Bool :=
  (decide (name ∈ varianceNames) && decide (|v| ≤ 1/20))
    || (!decide (name ∈ varianceNames) && decide (t ≤ v))

/-- The `Status` column entry of a row; the comparison semantics of a
non-finite value is outside the embedding, hence `Option`. -/
def ratioStatus (row : RatioRow) : Option Bool :=
  row.value.map fun v => statusGood row.name v row.target

/-- The cash-flow component panel (app.py lines 436-443). -/
def cashFlowComponents (x : MRec) : List (String × Rat) :=
  [("Operating", x.operatingCashFlow), ("Investing", x.investingCashFlow),
   ("Financing", x.financingCashFlow)]

/-- `all_months = list(range(1, 13))` (app.py line 403). -/
def monthsAll : List Int := [1, 2, 3, 4, 5, 6, 7, 8, 9, 10, 11, 12]

/-- The month columns present in the pivot before the fill-in loop:
pandas sorts the distinct `dt.month` values. -/
def colsPresent (rows : List MRec) : List Int :=
  monthsAll.filter fun m => rows.any fun r => decide (r.date.month = m)

/-- One pivot cell before `fillna`: the mean profit margin of the rows of
that year and month, `NaN` (here `none`) when no row matches. -/
def pivotCell (rows : List MRec) (y m : Int) : Option Rat :=
  let xs := rows.filter fun r => decide (r.date.year = y) && decide (r.date.month = m)
  if xs.isEmpty then none
  else some ((xs.map fun r => r.profitMargin).sum / (xs.length : Rat))

/-- A pivot cell after `.fillna(0)` (app.py line 400). -/
def filledCell (rows : List MRec) (y m : Int) : Rat :=
  (pivotCell rows y m).getD 0

/-- The columns after the loop `for month in all_months: if month not in
heatmap_data.columns: heatmap_data[month] = 0` (app.py lines 404-406),
which appends the missing months. -/
def colsAfterLoop (rows : List MRec) : List Int :=
  colsPresent rows ++ monthsAll.filter fun m => !decide (m ∈ colsPresent rows)

/-- The columns after the reindex `heatmap_data[all_months]` (app.py
line 409): the months of `all_months`, in that order, as found among the
post-loop columns. -/
def heatCols (rows : List MRec) : List Int :=
  monthsAll.filter fun m => decide (m ∈ colsAfterLoop rows)

/-- The final heatmap cell for year `y`, month `m`: a column appended by
the fill-in loop is all zeros, otherwise the `fillna(0)` pivot value. -/
def heatCell (rows : List MRec) (y m : Int) : Rat :=
  if m ∈ colsPresent rows then filledCell rows y m else 0

/-- Digit-grouping step of Python's `{:,}`: commas every three digits,
applied to the reversed digit list. -/
def group3 : List Char → List Char
  | a :: b :: c :: d :: rest => a :: b :: c :: Char.ofNat 44 :: group3 (d :: rest)
  | l => l

/-- A natural number with `,` thousands separators. -/
def natCommaString (n : Nat) : String :=
  String.mk ((group3 (Nat.toDigits 10 n).reverse).reverse)

/-- An integer with `,` thousands separators and a leading `-` sign. -/
def intCommaString (v : Int) : String :=
  if v < 0 then "-" ++ natCommaString v.natAbs else natCommaString v.natAbs

/-- Round to the nearest integer, ties to even (Python float formatting). -/
def roundHalfEven (q : Rat) : Int :=
  if q - ⌊q⌋ < 1/2 then ⌊q⌋
  else if 1/2 < q - ⌊q⌋ then ⌊q⌋ + 1
  else if ⌊q⌋ % 2 = 0 then ⌊q⌋ else ⌊q⌋ + 1

/-- Python `f"{q:.1f}"`: one decimal, round half to even. -/
def fmt1 (q : Rat) : String :=
  (if roundHalfEven (q * 10) < 0 then "-" else "")
    ++ toString ((roundHalfEven (q * 10)).natAbs / 10) ++ "."
    ++ toString ((roundHalfEven (q * 10)).natAbs % 10)

/-- Python `f"{q:,.0f}"`: no decimals, comma-grouped. -/
def fmt0comma (q : Rat) : String :=
  intCommaString (roundHalfEven q)

/-- `format_currency` (app.py lines 20-26). -/
def format_currency (value : Rat) : String :=
  if 1000000 ≤ value then "$" ++ fmt1 (value / 1000000) ++ "M"
  else if 1000 ≤ value then "$" ++ fmt1 (value / 1000) ++ "K"
  else "$" ++ fmt0comma value

/-- A concrete stand-in for the seed-42 draw stream: whatever numpy's
Mersenne-Twister stream is, it is one fixed value of `Draws`, the same in
every call that seeds with 42; the constant stream below serves wherever a
statement holds for (or is refuted at) an arbitrary fixed stream. -/
def cDraws : Draws :=
  { sinv := fun _ => 0, noiseRev := fun _ => 1, budRevMul := fun _ => 1
    expRatio := fun _ => 1, noiseExp := fun _ => 1, budExpMul := fun _ => 1
    ocfMul := fun _ => 1, icfMul := fun _ => 1, fcfMul := fun _ => 1
    caMul := fun _ => 1, clMul := fun _ => 1
    deptRevFrac := fun _ _ => 1, deptExpFrac := fun _ _ => 1
    deptBudRevMul := fun _ _ => 1, deptBudExpMul := fun _ _ => 1 }

/-- The 12 month-end dates `pd.date_range` yields for a session run on
2026-10-12 (ordinals are days since 2025-09-30): 2025-10-31 .. 2026-09-30.
The last three month ends span 31+30+31 = 92 > 90 days. -/
def datesOct : List MDate :=
  [⟨31, 2025, 10⟩, ⟨61, 2025, 11⟩, ⟨92, 2025, 12⟩, ⟨123, 2026, 1⟩,
   ⟨151, 2026, 2⟩, ⟨182, 2026, 3⟩, ⟨212, 2026, 4⟩, ⟨243, 2026, 5⟩,
   ⟨273, 2026, 6⟩, ⟨304, 2026, 7⟩, ⟨335, 2026, 8⟩, ⟨365, 2026, 9⟩]

/-- The 12 month-end dates for a session run on 2026-05-12 (ordinals are
days since 2025-04-30): 2025-05-31 .. 2026-04-30.  The last three month
ends span 28+31+30 = 89 ≤ 90 days, so a fourth record falls inside the
90-day window. -/
def datesMay : List MDate :=
  [⟨31, 2025, 5⟩, ⟨61, 2025, 6⟩, ⟨92, 2025, 7⟩, ⟨123, 2025, 8⟩,
   ⟨153, 2025, 9⟩, ⟨184, 2025, 10⟩, ⟨214, 2025, 11⟩, ⟨245, 2025, 12⟩,
   ⟨276, 2026, 1⟩, ⟨304, 2026, 2⟩, ⟨335, 2026, 3⟩, ⟨365, 2026, 4⟩]

/-- A record with zero revenue and zero current liabilities, exercising
every division guard of the ratio panel at once. -/
def rec0 : MRec :=
  { date := dateDef, revenue := 0, expenses := 3, profit := -3, profitMargin := 0
    budgetRevenue := 1, budgetExpenses := 1, budgetProfit := 0, budgetProfitMargin := 0
    operatingCashFlow := 1, investingCashFlow := 1, financingCashFlow := 1
    netCashFlow := 3, currentAssets := 2, currentLiabilities := 0 }

/-- The two bookkeeping identities of a monthly record: `profit =
revenue - expenses` and `net_cash_flow = operating + investing +
financing`. -/
def okM (x : MRec) : Prop :=
  x.profit = x.revenue - x.expenses ∧
    x.netCashFlow = x.operatingCashFlow + x.investingCashFlow + x.financingCashFlow

/-- The numeric columns of a monthly row, every column except the
date-derived ones. -/
def stripM (x : MRec) : List Rat :=
  [x.revenue, x.expenses, x.profit, x.profitMargin,
   x.budgetRevenue, x.budgetExpenses, x.budgetProfit, x.budgetProfitMargin,
   x.operatingCashFlow, x.investingCashFlow, x.financingCashFlow,
   x.netCashFlow, x.currentAssets, x.currentLiabilities]

/-- The department and numeric columns of a department row. -/
def stripD (x : DRec) : String × List Rat :=
  (x.department,
   [x.revenue, x.expenses, x.profit, x.budgetRevenue, x.budgetExpenses, x.budgetProfit])

theorem okM_generateMonthly (dates : List MDate) (D : Draws) :
    ∀ x ∈ generateMonthly dates D, okM x := by
  intro x hx
  simp only [generateMonthly, List.mem_map, List.mem_range] at hx
  obtain ⟨i, -, rfl⟩ := hx
  exact ⟨rfl, rfl⟩

theorem okM_scenarioRevenue (r : Rat) (x : MRec) (h : okM x) : okM (scenarioRevenue r x) :=
  ⟨rfl, h.2⟩

theorem okM_scenarioExpense (e : Rat) (x : MRec) (h : okM x) : okM (scenarioExpense e x) :=
  ⟨rfl, h.2⟩

theorem okM_applyScenario (r e : Rat) (rows : List MRec) (h : ∀ y ∈ rows, okM y) :
    ∀ x ∈ applyScenario r e rows, okM x := by
  intro x hx
  by_cases he : e = 0 <;> by_cases hr : r = 0 <;>
    simp only [applyScenario, if_pos, if_neg, he, hr, if_true, if_false,
      List.mem_map] at hx
  · exact h x hx
  · obtain ⟨y, hy, rfl⟩ := hx
    exact okM_scenarioRevenue r y (h y hy)
  · obtain ⟨y, hy, rfl⟩ := hx
    exact okM_scenarioExpense e y (h y hy)
  · obtain ⟨y, ⟨z, hz, rfl⟩, rfl⟩ := hx
    exact okM_scenarioExpense e _ (okM_scenarioRevenue r z (h z hz))

theorem mem_of_filterMonthly (p : TimePeriod) (main : List MRec) (x : MRec)
    (hx : x ∈ filterMonthly p main) : x ∈ main := by
  cases p <;> simp only [filterMonthly] at hx
  · exact (List.mem_filter.mp hx).1
  · exact (List.mem_filter.mp hx).1
  · exact hx
  · exact hx

/-- C1: every record produced by `generate` satisfies
`profit = revenue - expenses`, monthly records also satisfy
`net_cash_flow = operating + investing + financing`, and both identities
survive any time-window filtering followed by any scenario perturbation
(the model computes over `Rat`, so the identities are exact). -/
theorem generate_scenario_invariants (dates : List MDate) (D : Draws)
    (p : TimePeriod) (r e : Rat) :
    (∀ x ∈ (generate dates D).1,
      x.profit = x.revenue - x.expenses ∧
      x.netCashFlow = x.operatingCashFlow + x.investingCashFlow + x.financingCashFlow) ∧
    (∀ x ∈ (generate dates D).2, x.profit = x.revenue - x.expenses) ∧
    (∀ x ∈ applyScenario r e (filterMonthly p (generate dates D).1),
      x.profit = x.revenue - x.expenses ∧
      x.netCashFlow = x.operatingCashFlow + x.investingCashFlow + x.financingCashFlow) := by
  refine ⟨okM_generateMonthly dates D, ?_, ?_⟩
  · intro x hx
    have hx' : x ∈ generateDept dates D := hx
    rw [generateDept, List.mem_flatten] at hx'
    obtain ⟨l, hl, hxl⟩ := hx'
    rw [List.mem_map] at hl
    obtain ⟨i, -, rfl⟩ := hl
    rw [List.mem_map] at hxl
    obtain ⟨j, -, rfl⟩ := hxl
    rfl
  · exact okM_applyScenario r e _ fun y hy =>
      okM_generateMonthly dates D y (mem_of_filterMonthly p _ y hy)

/-- C1 witness: the identities at the first monthly record of a concrete
session. -/
theorem generate_scenario_invariants_witness :
    ((generate datesOct cDraws).1.get ⟨0, by decide⟩).profit
        = ((generate datesOct cDraws).1.get ⟨0, by decide⟩).revenue
          - ((generate datesOct cDraws).1.get ⟨0, by decide⟩).expenses :=
  ((generate_scenario_invariants datesOct cDraws .last3 10 0).1 _
    (List.get_mem _ _ _)).1

/-- C5: when the filtered monthly table is empty, both `latest_data`
(the ratio panel, app.py line 322) and `latest_cash_flow` (the cash-flow
component panel, app.py line 435) fall back to the last record of the
full base table, which exists whenever the base table is non-empty. -/
theorem empty_filter_fallback (fl base : List MRec) (hf : fl = [])
    (hb : base ≠ []) :
    latest_data fl base = base.getLast? ∧
    latest_cash_flow fl base = base.getLast? ∧
    (latest_data fl base).isSome = true ∧
    (latest_cash_flow fl base).isSome = true := by
  subst hf
  have hlast : (base.getLast?).isSome = true := List.getLast?_isSome.mpr hb
  exact ⟨rfl, rfl, hlast, hlast⟩

/-- C5 witness: the fallback at a concrete empty window over a one-row
base table. -/
theorem empty_filter_fallback_witness :
    latest_data [] [mdef] = [mdef].getLast? ∧
    latest_cash_flow [] [mdef] = [mdef].getLast? ∧
    (latest_data [] [mdef]).isSome = true ∧
    (latest_cash_flow [] [mdef]).isSome = true :=
  empty_filter_fallback [] [mdef] rfl (by decide)

/-- C9: `format_currency` renders `$X.XM` (value / 1,000,000 to one
decimal) for values at least 1,000,000, `$X.XK` (value / 1,000 to one
decimal) for values in [1,000, 1,000,000), and otherwise a
dollar-prefixed comma-grouped integer with no decimals. -/
theorem format_currency_breakpoints (v : Rat) :
    (1000000 ≤ v → format_currency v = "$" ++ fmt1 (v / 1000000) ++ "M") ∧
    (1000 ≤ v → v < 1000000 → format_currency v = "$" ++ fmt1 (v / 1000) ++ "K") ∧
    (v < 1000 → format_currency v = "$" ++ fmt0comma v) := by
  refine ⟨fun h => ?_, fun h1 h2 => ?_, fun h => ?_⟩
  · rw [format_currency, if_pos h]
  · rw [format_currency, if_neg (not_le.mpr h2), if_pos h1]
  · rw [format_currency, if_neg (not_le.mpr (by linarith)), if_neg (not_le.mpr h)]

/-- C9 witness: one value per branch. -/
theorem format_currency_breakpoints_witness :
    format_currency 2500000 = "$2.5M" ∧
    format_currency 1500 = "$1.5K" ∧
    format_currency 999 = "$999" := by
  refine ⟨?_, ?_, ?_⟩
  · rw [(format_currency_breakpoints 2500000).1 (by norm_num)]
    rw [show ((2500000 : Rat) / 1000000) = 5/2 from by norm_num]
    rw [fmt1, show roundHalfEven ((5/2 : Rat) * 10) = 25 from by
      norm_num [roundHalfEven]]
    decide
  · rw [(format_currency_breakpoints 1500).2.1 (by norm_num) (by norm_num)]
    rw [show ((1500 : Rat) / 1000) = 3/2 from by norm_num]
    rw [fmt1, show roundHalfEven ((3/2 : Rat) * 10) = 15 from by
      norm_num [roundHalfEven]]
    decide
  · rw [(format_currency_breakpoints 999).2.2 (by norm_num)]
    rw [fmt0comma, show roundHalfEven (999 : Rat) = 999 from by
      norm_num [roundHalfEven]]
    decide

/-- C10: `Last 12 Months` and `All Time` take the same branch and leave
both base tables unfiltered (before the department selection and the
scenario are applied), so the two window choices produce identical
views. -/
theorem last12_allTime_unfiltered (main : List MRec) (dept : List DRec) :
    filterMonthly .last12 main = main ∧ filterMonthly .allTime main = main ∧
    filterDeptTime .last12 dept = dept ∧ filterDeptTime .allTime dept = dept :=
  ⟨rfl, rfl, rfl, rfl⟩

/-- C2: applying a `+10` revenue scenario (expense scenario 0) maps each
filtered monthly row through `scenarioRevenue 10`, which multiplies
revenue by exactly 11/10, recomputes profit from the perturbed revenue
and the untouched expenses, recomputes the margin from the perturbed
pair, and leaves every other field unchanged; the department view is
identical to the unperturbed one. -/
theorem scenario_plus10_revenue (p : TimePeriod) (sel : List String)
    (main : List MRec) (dept : List DRec) :
    (applyView p sel 10 0 main dept).1
        = (filterMonthly p main).map (scenarioRevenue 10) ∧
    (∀ x : MRec,
      (scenarioRevenue 10 x).revenue = x.revenue * (11/10) ∧
      (scenarioRevenue 10 x).profit = x.revenue * (11/10) - x.expenses ∧
      (scenarioRevenue 10 x).profitMargin
          = (scenarioRevenue 10 x).profit / (scenarioRevenue 10 x).revenue ∧
      (scenarioRevenue 10 x).expenses = x.expenses ∧
      (scenarioRevenue 10 x).operatingCashFlow = x.operatingCashFlow ∧
      (scenarioRevenue 10 x).investingCashFlow = x.investingCashFlow ∧
      (scenarioRevenue 10 x).financingCashFlow = x.financingCashFlow ∧
      (scenarioRevenue 10 x).netCashFlow = x.netCashFlow ∧
      (scenarioRevenue 10 x).currentAssets = x.currentAssets ∧
      (scenarioRevenue 10 x).currentLiabilities = x.currentLiabilities ∧
      (scenarioRevenue 10 x).budgetRevenue = x.budgetRevenue ∧
      (scenarioRevenue 10 x).budgetExpenses = x.budgetExpenses ∧
      (scenarioRevenue 10 x).budgetProfit = x.budgetProfit ∧
      (scenarioRevenue 10 x).budgetProfitMargin = x.budgetProfitMargin ∧
      (scenarioRevenue 10 x).date = x.date) ∧
    (applyView p sel 10 0 main dept).2 = (applyView p sel 0 0 main dept).2 := by
  refine ⟨?_, ?_, rfl⟩
  · show applyScenario 10 0 (filterMonthly p main) = _
    simp only [applyScenario]
    norm_num
  · intro x
    refine ⟨?_, ?_, rfl, rfl, rfl, rfl, rfl, rfl, rfl, rfl, rfl, rfl, rfl, rfl, rfl⟩
    · show x.revenue * (1 + 10 / 100) = x.revenue * (11/10)
      norm_num
    · show x.revenue * (1 + 10 / 100) - x.expenses = x.revenue * (11/10) - x.expenses
      norm_num

theorem guardDiv_nonpos (a b : Rat) (h : b ≤ 0) : guardDiv a b = 0 := by
  unfold guardDiv
  rw [if_neg (not_lt.mpr h)]

theorem fdiv_zero (a : Rat) : fdiv a 0 = none := by
  simp [fdiv]

/-- C4 counterexample: a latest record with zero revenue makes the
`Expense Ratio` entry of the panel an unguarded division by zero, whose
float result is non-finite (`none`), not 0 — refuting "every ratio in
the panel whose denominator is zero yields 0". -/
theorem ratio_zero_denominator_cex :
    rec0.revenue = 0 ∧
    ((ratiosTable rec0 [rec0]).getD 3 rowDef).name = "Expense Ratio" ∧
    ((ratiosTable rec0 [rec0]).getD 3 rowDef).value = none := by
  refine ⟨rfl, rfl, ?_⟩
  show fdiv rec0.expenses rec0.revenue = none
  have h : rec0.revenue = 0 := rfl
  rw [h, fdiv_zero]

/-- C4 amended, clause by clause with independent hypotheses: a record
with `current_liabilities = 0` (more generally ≤ 0, the complement of
the code's `> 0` guard) gives current ratio, quick ratio and
operating-cash-flow ratio 0; the remaining guarded ratios — return on
investment (denominator expenses), revenue variance (budget_revenue)
and expense variance (budget_expenses) — likewise yield 0 when their
denominator is not positive; but the unguarded plain divisions — the
revenue-denominator ratios (operating margin, EBITDA margin, expense
ratio) and the MoM revenue growth — yield a non-finite float, not 0,
when their denominator is zero. -/
theorem ratio_zero_denominator_amended (x : MRec) (fl : List MRec) :
    (((ratiosTable x fl).getD 6 rowDef).name = "Current Ratio" ∧
     ((ratiosTable x fl).getD 7 rowDef).name = "Quick Ratio" ∧
     ((ratiosTable x fl).getD 8 rowDef).name = "Operating Cash Flow Ratio" ∧
     ((ratiosTable x fl).getD 5 rowDef).name = "Return on Investment" ∧
     ((ratiosTable x fl).getD 9 rowDef).name = "Revenue Variance" ∧
     ((ratiosTable x fl).getD 10 rowDef).name = "Expense Variance" ∧
     ((ratiosTable x fl).getD 1 rowDef).name = "Operating Margin" ∧
     ((ratiosTable x fl).getD 2 rowDef).name = "EBITDA Margin" ∧
     ((ratiosTable x fl).getD 3 rowDef).name = "Expense Ratio" ∧
     ((ratiosTable x fl).getD 4 rowDef).name = "Revenue Growth (MoM)") ∧
    (x.currentLiabilities ≤ 0 →
      ((ratiosTable x fl).getD 6 rowDef).value = some 0 ∧
      ((ratiosTable x fl).getD 7 rowDef).value = some 0 ∧
      ((ratiosTable x fl).getD 8 rowDef).value = some 0) ∧
    (x.expenses ≤ 0 → ((ratiosTable x fl).getD 5 rowDef).value = some 0) ∧
    (x.budgetRevenue ≤ 0 → ((ratiosTable x fl).getD 9 rowDef).value = some 0) ∧
    (x.budgetExpenses ≤ 0 → ((ratiosTable x fl).getD 10 rowDef).value = some 0) ∧
    (x.revenue = 0 →
      ((ratiosTable x fl).getD 1 rowDef).value = none ∧
      ((ratiosTable x fl).getD 2 rowDef).value = none ∧
      ((ratiosTable x fl).getD 3 rowDef).value = none) ∧
    (1 < fl.length → (fl.getD (fl.length - 2) mdef).revenue = 0 →
      ((ratiosTable x fl).getD 4 rowDef).value = none) := by
  refine ⟨⟨rfl, rfl, rfl, rfl, rfl, rfl, rfl, rfl, rfl, rfl⟩,
    ?_, ?_, ?_, ?_, ?_, ?_⟩
  · intro h
    refine ⟨?_, ?_, ?_⟩
    · show some (guardDiv x.currentAssets x.currentLiabilities) = some 0
      rw [guardDiv_nonpos _ _ h]
    · show some (guardDiv (x.currentAssets * (7/10)) x.currentLiabilities) = some 0
      rw [guardDiv_nonpos _ _ h]
    · show some (guardDiv x.operatingCashFlow x.currentLiabilities) = some 0
      rw [guardDiv_nonpos _ _ h]
  · intro h
    show some (guardDiv x.profit x.expenses) = some 0
    rw [guardDiv_nonpos _ _ h]
  · intro h
    show some (guardDiv (x.revenue - x.budgetRevenue) x.budgetRevenue) = some 0
    rw [guardDiv_nonpos _ _ h]
  · intro h
    show some (guardDiv (x.expenses - x.budgetExpenses) x.budgetExpenses) = some 0
    rw [guardDiv_nonpos _ _ h]
  · intro h
    refine ⟨?_, ?_, ?_⟩
    · show fdiv x.profit x.revenue = none
      rw [h, fdiv_zero]
    · show fdiv x.profit x.revenue = none
      rw [h, fdiv_zero]
    · show fdiv x.expenses x.revenue = none
      rw [h, fdiv_zero]
  · intro hlen hrev
    show revenueGrowth fl = none
    unfold revenueGrowth
    rw [if_pos hlen, hrev, fdiv_zero]
    rfl

/-- C4 witness: at the concrete record with zero liabilities and zero
revenue, and a two-row filtered table whose second-last revenue is 0. -/
theorem ratio_zero_denominator_amended_witness :
    ((ratiosTable rec0 [rec0, rec0]).getD 6 rowDef).value = some 0 ∧
    ((ratiosTable rec0 [rec0, rec0]).getD 1 rowDef).value = none ∧
    ((ratiosTable rec0 [rec0, rec0]).getD 4 rowDef).value = none :=
  ⟨((ratio_zero_denominator_amended rec0 [rec0, rec0]).2.1 le_rfl).1,
   ((ratio_zero_denominator_amended rec0 [rec0, rec0]).2.2.2.2.2.1 rfl).1,
   (ratio_zero_denominator_amended rec0 [rec0, rec0]).2.2.2.2.2.2
     (by decide) rfl⟩

/-- C7: a panel row with a finite value has status `Good` exactly when
it is one of the two variance ratios with `|value| <= 0.05`, or any
other ratio with `value >= target` (the row's fixed target constant). -/
theorem ratio_status_rule (latest : MRec) (fl : List MRec) (row : RatioRow)
    (hrow : row ∈ ratiosTable latest fl) (v : Rat) (hv : row.value = some v) :
    (ratioStatus row = some true ↔
      ((row.name = "Revenue Variance" ∨ row.name = "Expense Variance") ∧
        |v| ≤ 1/20) ∨
      (¬(row.name = "Revenue Variance" ∨ row.name = "Expense Variance") ∧
        row.target ≤ v)) := by
  unfold ratioStatus
  rw [hv]
  simp only [Option.map_some', Option.some.injEq]
  unfold statusGood
  simp only [varianceNames, List.mem_cons, List.mem_singleton, List.not_mem_nil,
    or_false, Bool.or_eq_true, Bool.and_eq_true, decide_eq_true_eq,
    Bool.not_eq_true', decide_eq_false_iff_not]

/-- C7 witness: the first panel row of a concrete record has a finite
value 0 and fails its 0.25 target, so its status is not `Good`. -/
theorem ratio_status_rule_witness :
    ¬ ratioStatus ((ratiosTable mdef []).getD 0 rowDef) = some true := by
  intro hT
  have h := (ratio_status_rule mdef [] ((ratiosTable mdef []).getD 0 rowDef)
      (List.mem_cons_self _ _) 0 rfl).mp hT
  rcases h with ⟨hn, -⟩ | ⟨-, hle⟩
  · rcases hn with hn | hn <;> exact absurd hn (by decide)
  · have ht : ((ratiosTable mdef []).getD 0 rowDef).target = 1/4 := rfl
    rw [ht] at hle
    exact absurd hle (by norm_num)

/-- C8: for a non-empty filtered table the heatmap pivot has exactly the
12 month columns 1..12 in calendar order, and every (year, month) cell
with no matching row in the filtered window is 0. -/
theorem heatmap_months_complete (rows : List MRec) (h : rows ≠ []) :
    heatCols rows = monthsAll ∧
    (∀ y m : Int, m ∈ monthsAll →
      (∀ x ∈ rows, ¬(x.date.year = y ∧ x.date.month = m)) →
      heatCell rows y m = 0) := by
  constructor
  · unfold heatCols
    rw [List.filter_eq_self]
    intro m hm
    rw [decide_eq_true_eq]
    by_cases hp : m ∈ colsPresent rows
    · exact List.mem_append_left _ hp
    · refine List.mem_append_right _ ?_
      rw [List.mem_filter]
      exact ⟨hm, by simpa using hp⟩
  · intro y m hm hnd
    unfold heatCell
    by_cases hp : m ∈ colsPresent rows
    · rw [if_pos hp]
      unfold filledCell
      have hnone : pivotCell rows y m = none := by
        simp only [pivotCell]
        rw [if_pos]
        rw [List.isEmpty_iff, List.filter_eq_nil_iff]
        intro x hx
        simp only [Bool.and_eq_true, decide_eq_true_eq, not_and]
        exact fun hy hm2 => hnd x hx ⟨hy, hm2⟩
      rw [hnone]
      rfl
    · exact if_neg hp

/-- C8 witness: the pivot of a one-row table. -/
theorem heatmap_months_complete_witness :
    heatCols [mdef] = monthsAll :=
  (heatmap_months_complete [mdef] (List.cons_ne_nil _ _)).1

/-- C3 counterexample: two `generate` calls with the same draw stream
(same seed) and the same month count but different `datetime.now()`
values produce different tables — the `Date` columns differ — so "same
seed and same month count" alone does not give bit-identical output. -/
theorem generate_same_seed_cex :
    datesOct.length = datesMay.length ∧
    generate datesOct cDraws ≠ generate datesMay cDraws := by
  refine ⟨rfl, ?_⟩
  intro hEq
  have hcol := congrArg (fun t => t.1.map fun x => x.date.ord) hEq
  exact absurd hcol (by decide)

/-- C3 amended: with the same seed (same draw stream) and the same month
count, the two tables agree on every numeric column; only the
`datetime.now()`-derived date column can differ, and it too agrees when
the two calls see the same current date. -/
theorem generate_same_seed_numeric (D : Draws) (d1 d2 : List MDate)
    (h : d1.length = d2.length) :
    (generate d1 D).1.map stripM = (generate d2 D).1.map stripM ∧
    (generate d1 D).2.map stripD = (generate d2 D).2.map stripD := by
  constructor
  · show (generateMonthly d1 D).map stripM = (generateMonthly d2 D).map stripM
    unfold generateMonthly
    rw [List.map_map, List.map_map, h]
    apply List.map_congr_left
    intro i _
    rfl
  · show (generateDept d1 D).map stripD = (generateDept d2 D).map stripD
    unfold generateDept
    rw [List.map_flatten, List.map_flatten, List.map_map, List.map_map, h]
    apply congrArg List.flatten
    apply List.map_congr_left
    intro i _
    simp only [Function.comp_apply, List.map_map]
    apply List.map_congr_left
    intro j _
    rfl

/-- C3 witness: numeric-column agreement between the two concrete runs. -/
theorem generate_same_seed_numeric_witness :
    (generate datesOct cDraws).1.map stripM
      = (generate datesMay cDraws).1.map stripM :=
  (generate_same_seed_numeric cDraws datesOct datesMay rfl).1

set_option maxRecDepth 40000 in
/-- C6 counterexample: in a session whose 12 generated month-ends run to
2026-04-30, the last three months span only 89 days, so the 90-day
`Last 3 Months` window keeps 4 monthly records (and 4 × 5 = 20
department rows), not exactly 3. -/
theorem last3_window_cex :
    (applyView .last3 departments 0 0 (generateMonthly datesMay cDraws)
        (generateDept datesMay cDraws)).1.length = 4 ∧
    ¬(applyView .last3 departments 0 0 (generateMonthly datesMay cDraws)
        (generateDept datesMay cDraws)).1.length = 3 ∧
    (applyView .last3 departments 0 0 (generateMonthly datesMay cDraws)
        (generateDept datesMay cDraws)).2.length = 20 := by
  exact ⟨rfl, by decide, rfl⟩

set_option maxRecDepth 40000 in
/-- C6 amended: the `Last 3 Months` window keeps the records within 90
days of the latest date; in a session whose 12 month-ends run to
2026-09-30 the last three months span 92 days, so the filtered monthly
table is exactly the last 3 of the 12 generated records in ascending
date order and the department table has 3 × 5 = 15 rows (all
departments selected, scenario (0,0)); a session ending 2026-04-30
instead keeps 4 records (see the counterexample). -/
theorem last3_window_example :
    (generateMonthly datesOct cDraws).length = 12 ∧
    (applyView .last3 departments 0 0 (generateMonthly datesOct cDraws)
        (generateDept datesOct cDraws)).1
      = (generateMonthly datesOct cDraws).drop 9 ∧
    (applyView .last3 departments 0 0 (generateMonthly datesOct cDraws)
        (generateDept datesOct cDraws)).2.length = 15 := by
  exact ⟨rfl, rfl, rfl⟩

end FinDash
